import Mathlib

/-!
Shallow embedding of the RAG-Resume-Assistant streaming chat pipeline.

Source files embedded:
* `src/app/chat_config.py` — `chat_fn` (prompt builder + stream splitter)
* `src/app/handlers/chat_handlers.py` — `add_message`, `bot_response` and its
  helpers `_update_thinking_messages`, `_update_chat_response`,
  `_create_status_message`
* `src/app/handlers/document_handlers.py` — `handle_file_upload`,
  `format_document_display`, `clear_documents`

Python dict fields that may be absent are `Option`; Python truthiness of a
string field ("present and non-empty") is `truthyOpt`.  The nondeterministic
pieces of the environment (current date/time, `datetime.now().timestamp()`
used for document ids, the file system) are passed in as explicit parameters.
-/

/-- Python truthiness of an optional string field: present and non-empty. -/
def truthyOpt (o : Option String) : Bool :=
  match o with
  | some s => !s.isEmpty
  | none => false

/-- Python `s.startswith(pre)`: the characters of `pre` are a prefix of the
characters of `s`. -/
def startswith (s pre : String) : Bool :=
  pre.data.isPrefixOf s.data

/-- Python `s.strip()`: remove leading and trailing whitespace. -/
def strip (s : String) : String :=
  ⟨((s.data.dropWhile Char.isWhitespace).reverse.dropWhile Char.isWhitespace).reverse⟩

/-! ## Stream chunks (input of the splitter, `chat_config.py` lines 90–127) -/

/-- The `"message"` sub-dict of an Ollama stream chunk: optional `thinking`
and `content` string fields. -/
structure ChunkMsg where
  thinking : Option String
  content : Option String
  deriving Repr, DecidableEq

/-- One streamed chunk from the LLM client: optional `prompt_eval_count`,
`eval_count` and `message` fields. -/
structure Chunk where
  prompt_eval_count : Option Nat
  eval_count : Option Nat
  message : Option ChunkMsg
  deriving Repr, DecidableEq

/-- The running accumulator state of `chat_fn`'s loop
(`thinking_buffer`, `response_buffer`, `thinking_complete`,
`prompt_eval_count`, `eval_count`, lines 84–88). -/
structure SplitState where
  thinking_buffer : String
  response_buffer : String
  thinking_complete : Bool
  prompt_eval_count : Nat
  eval_count : Nat
  deriving Repr, DecidableEq

/-- Initial accumulator state of `chat_fn` (lines 84–88). -/
def initSplitState : SplitState :=
  { thinking_buffer := ""
    response_buffer := ""
    thinking_complete := false
    prompt_eval_count := 0
    eval_count := 0 }

/-- One dict yielded by `chat_fn`.  The normal-path yield (lines 121–127)
carries all five keys; the error-path yield (lines 132–136) omits the two
token-count keys, hence they are `Option`. -/
structure OutChunk where
  thinking : String
  response : String
  thinking_complete : Bool
  prompt_eval_count : Option Nat
  eval_count : Option Nat
  deriving Repr, DecidableEq

/-- The yield of the normal path (lines 121–127): all five accumulator
fields, token counts present. -/
def SplitState.toOut (s : SplitState) : OutChunk :=
  { thinking := s.thinking_buffer
    response := s.response_buffer
    thinking_complete := s.thinking_complete
    prompt_eval_count := some s.prompt_eval_count
    eval_count := some s.eval_count }

/-- The body of `chat_fn`'s `for chunk in response` loop (lines 90–119):
updates the accumulator state and reports whether this chunk triggers a
yield (`should_yield`). -/
def processChunk (s : SplitState) (c : Chunk) : SplitState × Bool :=
  let y0 := c.prompt_eval_count.isSome || c.eval_count.isSome
  let pec := c.prompt_eval_count.getD s.prompt_eval_count
  let ec := c.eval_count.getD s.eval_count
  match c.message with
  | none =>
      ({ s with prompt_eval_count := pec, eval_count := ec }, y0)
  | some m =>
      let hasThinking := truthyOpt m.thinking
      let tb := if hasThinking then s.thinking_buffer ++ m.thinking.getD "" else s.thinking_buffer
      let hasContent := truthyOpt m.content
      let rb := if hasContent then s.response_buffer ++ m.content.getD "" else s.response_buffer
      let tc :=
        if hasContent && !tb.isEmpty && !s.thinking_complete then true
        else s.thinking_complete
      ({ thinking_buffer := tb
         response_buffer := rb
         thinking_complete := tc
         prompt_eval_count := pec
         eval_count := ec },
       y0 || hasThinking || hasContent)

/-- Running `chat_fn`'s loop over a list of chunks from a given state:
returns the final state and the list of yielded dicts, in order. -/
def runChunks (s : SplitState) : List Chunk → SplitState × List OutChunk
  | [] => (s, [])
  | c :: cs =>
      let sc := processChunk s c
      let rest := runChunks sc.1 cs
      (rest.1, (if sc.2 then [sc.1.toOut] else []) ++ rest.2)

/-- The error-path yield of `chat_fn` (lines 129–136): empty thinking, the
formatted error message as response, `thinking_complete` forced true, no
token-count keys. -/
def errorOut (e : String) : OutChunk :=
  { thinking := ""
    response := "Error communicating with Ollama: " ++ e
    thinking_complete := true
    prompt_eval_count := none
    eval_count := none }

/-- Everything `chat_fn` yields.  The `try` block covers the `client.chat`
call and the whole loop, so an exception is modelled as: `chunks` is the
list of chunks delivered before the raise, `errored` says whether the
iteration then raised (with message `e`), in which case the single
`except` yield follows and the generator ends. -/
def chat_fn_outputs (chunks : List Chunk) (errored : Bool) (e : String) : List OutChunk :=
  (runChunks initSplitState chunks).2 ++ (if errored then [errorOut e] else [])

/-! ## Chat handlers (`src/app/handlers/chat_handlers.py`) -/

/-- A Gradio `ChatMessage` as used by the handlers: role and content
(the handlers never set metadata on the messages they create). -/
structure ChatMessage where
  role : String
  content : String
  deriving Repr, DecidableEq

/-- A `{"role": ..., "content": ...}` dict of the thinking display list. -/
structure ThinkMsg where
  role : String
  content : String
  deriving Repr, DecidableEq

/-- `_create_status_message` (lines 252–265): a single-element status list. -/
def create_status_message (status_text : String) : List ThinkMsg :=
  [{ role := "assistant", content := "*" ++ status_text ++ "*" }]

/-- `_update_thinking_messages` (lines 172–218). -/
def update_thinking_messages (thinking_messages : List ThinkMsg) (thinking : String)
    (thinking_complete : Bool) (current_thinking_content : String) : List ThinkMsg :=
  if thinking.isEmpty then
    if thinking_messages.isEmpty then create_status_message "Waiting for response..."
    else thinking_messages
  else
    let status_icon := if thinking_complete then "✓" else "⏳"
    let formatted_content := "**" ++ status_icon ++ " Thinking**\n\n" ++ thinking
    if !thinking_messages.isEmpty && startswith thinking current_thinking_content then
      thinking_messages.dropLast ++ [{ role := "assistant", content := formatted_content }]
    else
      thinking_messages ++ [{ role := "assistant", content := formatted_content }]

/-- `_update_chat_response` (lines 221–249).  The overwrite branch
(`history[-1] = response_message`) is only reached by `bot_response` after a
message was appended, so `history` is non-empty there; on an empty list the
Python statement would raise, and `dropLast ++ [·]` is its behaviour on the
non-empty lists actually passed. -/
def update_chat_response (history : List ChatMessage) (response : String)
    (response_msg_added : Bool) : List ChatMessage :=
  if response.isEmpty then history
  else
    let response_message : ChatMessage := { role := "assistant", content := response }
    if !response_msg_added then history ++ [response_message]
    else history.dropLast ++ [response_message]

/-- The loop state of `bot_response` (lines 67–73). -/
structure BotState where
  history : List ChatMessage
  response_msg_added : Bool
  thinking_messages : List ThinkMsg
  current_thinking_content : String
  token_prompt : Nat
  token_response : Nat
  deriving Repr, DecidableEq

/-- Initial loop state of `bot_response` for a given incoming history. -/
def initBotState (history : List ChatMessage) : BotState :=
  { history := history
    response_msg_added := false
    thinking_messages := []
    current_thinking_content := ""
    token_prompt := 0
    token_response := 0 }

/-- The body of `bot_response`'s `for chunk in response_generator` loop
(lines 79–106), without the per-iteration yield. -/
def processBotChunk (st : BotState) (c : OutChunk) : BotState :=
  let thinking := c.thinking
  let response := c.response
  let thinking_complete := c.thinking_complete
  let tp := c.prompt_eval_count.getD st.token_prompt
  let tr := c.eval_count.getD st.token_response
  let tm := update_thinking_messages st.thinking_messages thinking thinking_complete
    st.current_thinking_content
  let cur := if !thinking.isEmpty then thinking else st.current_thinking_content
  let hist := update_chat_response st.history response st.response_msg_added
  let added := if !response.isEmpty && !st.response_msg_added then true else st.response_msg_added
  { history := hist
    response_msg_added := added
    thinking_messages := tm
    current_thinking_content := cur
    token_prompt := tp
    token_response := tr }

/-- Running `bot_response`'s loop over the whole stream of splitter outputs. -/
def runBot (st : BotState) (outs : List OutChunk) : BotState :=
  outs.foldl processBotChunk st

/-- The thinking-message list of `bot_response`'s final yield (lines
108–112): the loop result, replaced by the "No thinking data available"
sentinel when it is still empty. -/
def bot_final_thinking (history : List ChatMessage) (outs : List OutChunk) : List ThinkMsg :=
  let st := runBot (initBotState history) outs
  if st.thinking_messages.isEmpty then create_status_message "No thinking data available"
  else st.thinking_messages

/-- The chat history of `bot_response`'s final yield. -/
def bot_final_history (history : List ChatMessage) (outs : List OutChunk) : List ChatMessage :=
  (runBot (initBotState history) outs).history

/-- The Gradio `MultimodalTextbox` value returned by `add_message`:
its `value` and `interactive` arguments. -/
structure TextboxOut where
  value : Option String
  interactive : Bool
  deriving Repr, DecidableEq

/-- The `message` argument of `add_message`: a dict with an optional
`"text"` key, a plain string, or a falsy non-dict value such as `None`. -/
inductive MsgInput where
  | dictIn (text : Option String)
  | strIn (s : String)
  | noneIn
  deriving Repr, DecidableEq

/-- The `user_content` extraction of `add_message` (lines 26–29):
`message.get("text", "")` for dicts, `str(message) if message else ""`
otherwise. -/
def extractText (m : MsgInput) : String :=
  match m with
  | .dictIn t => t.getD ""
  | .strIn s => s
  | .noneIn => ""

/-- `add_message` (lines 15–38). -/
def add_message (history : List ChatMessage) (message : MsgInput) :
    List ChatMessage × TextboxOut :=
  let user_content := extractText message
  let history :=
    if !(strip user_content).isEmpty then
      history ++ [{ role := "user", content := user_content }]
    else history
  (history, { value := none, interactive := false })

/-! ## Document store (`src/app/handlers/document_handlers.py`) -/

/-- One stored document's data dict (lines 58–64). -/
structure Doc where
  filename : String
  content : String
  size_kb : Nat
  upload_date : String
  status : String
  deriving Repr, DecidableEq

/-- The document store: a Python dict `doc_id -> doc_data`, modelled as an
insertion-ordered association list. -/
abbrev DocStore := List (String × Doc)

/-- One file handed to `handle_file_upload`.  `content = none` models the
read raising an exception (the `except` branch, lines 66–68); `size_kb`
stands for `os.path.getsize(file_path) / 1024` rounded (line 54). -/
structure FileInput where
  path : String
  content : Option String
  size_kb : Nat
  deriving Repr, DecidableEq

/-- `os.path.basename`: the part of the path after the last `/` (the whole
path when it contains no `/`). -/
def basename (p : String) : String :=
  ⟨(p.data.reverse.takeWhile (fun ch => ch != '/')).reverse⟩

/-- The duplicate check of `handle_file_upload` (lines 37–40): whether some
stored document already has this filename. -/
def hasFilename (store : DocStore) (filename : String) : Bool :=
  store.any (fun e => e.2.filename == filename)

/-- How many entries of the store hold the given filename. -/
def countFilename (store : DocStore) (filename : String) : Nat :=
  (store.filter (fun e => e.2.filename == filename)).length

/-- The body of `handle_file_upload`'s `for file_path in files` loop (lines
32–68).  `clock` supplies `datetime.now()` for the id timestamp and the
upload date; it advances on every successful insert. -/
def uploadOne (acc : DocStore × Nat) (f : FileInput) : DocStore × Nat :=
  let store := acc.1
  let clock := acc.2
  let filename := basename f.path
  let already_exists := hasFilename store filename
  if already_exists then acc
  else
    match f.content with
    | none => acc
    | some content =>
        let doc_id := "doc_" ++ toString (store.length + 1) ++ "_" ++ toString clock
        (store ++ [(doc_id,
          { filename := filename
            content := content
            size_kb := f.size_kb
            upload_date := toString clock
            status := "Active" })],
         clock + 1)

/-- `format_document_display` (lines 73–97): display rows in store order. -/
def format_document_display (document_store : DocStore) : List (String × Nat × String × String) :=
  document_store.map (fun e => (e.2.filename, e.2.size_kb, e.2.upload_date, e.2.status))

/-- `handle_file_upload` (lines 15–70): store part of the result (the second
component of the Python return value is `format_document_display` of it). -/
def handle_file_upload (files : List FileInput) (store : DocStore) (clock : Nat) :
    DocStore × Nat :=
  if files.isEmpty then (store, clock)
  else files.foldl uploadOne (store, clock)

/-- `clear_documents` (lines 100–111). -/
def clear_documents (_document_store : DocStore) : DocStore × List (String × Nat × String × String) :=
  ([], format_document_display [])

/-! ## Prompt builder and message assembly (`src/app/chat_config.py` lines 19–71) -/

/-- The per-document block of the document context (lines 31–35): filename
header, first 5000 characters of content, truncation marker when longer,
separator. -/
def renderDocBlock (filename content : String) : String :=
  "\n---\n**Document: " ++ filename ++ "**\n"
    ++ content.take 5000
    ++ (if content.length > 5000 then "\n...(truncated)" else "")
    ++ "\n---\n"

/-- The document-context string (lines 27–35): empty when the store is
empty, otherwise a header plus one block per document in store order. -/
def documentContext (document_store : DocStore) : String :=
  if document_store.length == 0 then ""
  else
    "\n\n**Available Documents:**\n"
      ++ String.join (document_store.map (fun e => renderDocBlock e.2.filename e.2.content))

/-- A sample document content of 5001 identical characters, exceeding the
5000-character excerpt limit by one. -/
def longContent : String :=
  ⟨List.replicate 5001 'a'⟩

/-- A chunk carrying only a thinking fragment. -/
def thinkChunk (s : String) : Chunk :=
  ⟨none, none, some ⟨some s, none⟩⟩

/-- A chunk carrying only a response (content) fragment. -/
def respChunk (s : String) : Chunk :=
  ⟨none, none, some ⟨none, some s⟩⟩

/-- One message dict of the list sent to the LLM client. -/
structure LlmMessage where
  role : String
  content : String
  deriving Repr, DecidableEq

/-- One entry of the `history` argument of `chat_fn`: a dict read with
`.get("role")`, `.get("content")` and `.get("metadata", {}).get("title")`. -/
structure HistMsg where
  role : Option String
  content : Option String
  metadata_title : Option String
  deriving Repr, DecidableEq

/-- The history filter of `chat_fn` (lines 58–67): forwards user messages
and assistant messages without a metadata title, with truthy role and
content; drops everything else (system messages included). -/
def forwardHistMsg (m : HistMsg) : Option LlmMessage :=
  match m.role, m.content with
  | some r, some c =>
      if !(truthyOpt (some r)) || !(truthyOpt (some c)) then none
      else if r == "assistant" && !(truthyOpt m.metadata_title) then some { role := r, content := c }
      else if r == "user" then some { role := r, content := c }
      else none
  | _, _ => none

/-- The messages array built by `chat_fn` (lines 19–71): the system prompt
first, then the filtered history, then the extra `message` when truthy and
non-blank. -/
def buildMessages (system_prompt : String) (history : List HistMsg) (message : String) :
    List LlmMessage :=
  { role := "system", content := system_prompt }
    :: (history.filterMap forwardHistMsg
        ++ (if !message.isEmpty && !(strip message).isEmpty then
              [({ role := "user", content := message } : LlmMessage)]
            else []))

/-! ## Theorems -/

/-- C1 counterexample: on the chunk sequence [{thinking:"A"}, {thinking:"AB"},
{response:"X"}], the final state emitted by `chat_fn` does not have
thinking_text = "AB" — the loop appends fragments, so the buffer is "AAB". -/
theorem c1_counterexample :
    ¬ ((chat_fn_outputs [thinkChunk "A", thinkChunk "AB", respChunk "X"] false
        "").getLast?.map OutChunk.thinking = some "AB") := by
  decide

/-- C1 (amended): for the chunk sequence [{thinking:"A"}, {thinking:"AB"},
{response:"X"}] fed to `chat_fn`, the final emitted state has
thinking_text = "AAB" (thinking fragments are appended to the buffer),
response_text = "X", and thinking_complete = true. -/
theorem c1_stream_splitter_final_state :
    (chat_fn_outputs [thinkChunk "A", thinkChunk "AB", respChunk "X"] false
        "").getLast? =
      some { thinking := "AAB", response := "X", thinking_complete := true,
             prompt_eval_count := some 0, eval_count := some 0 } := by
  decide

/-- C3: if the network call or the iteration of its stream raises with
message `e` after delivering `chunks`, `chat_fn` emits exactly the states of
the normal path followed by one terminal state whose response is the
formatted error string and whose thinking_complete is true; nothing follows
it and nothing is retried. -/
theorem c3_error_terminal_state (chunks : List Chunk) (e : String) :
    chat_fn_outputs chunks true e =
      chat_fn_outputs chunks false e ++
        [{ thinking := "", response := "Error communicating with Ollama: " ++ e,
           thinking_complete := true, prompt_eval_count := none,
           eval_count := none }] := by
  simp [chat_fn_outputs, errorOut]

/-- C4: feeding the two splitter outputs with response "Hel" then "Hello"
(full restated text) through `bot_response`'s transcript update appends one
assistant message on the first non-empty response and overwrites it in place
on the second, leaving the last message exactly "Hello". -/
theorem c4_response_overwrite (history : List ChatMessage) (c1 c2 : OutChunk)
    (h1 : c1.response = "Hel") (h2 : c2.response = "Hello") :
    (runBot (initBotState history) [c1, c2]).history =
      history ++ [{ role := "assistant", content := "Hello" }] := by
  have e1 : "Hel".isEmpty = false := by decide
  have e2 : "Hello".isEmpty = false := by decide
  simp [runBot, processBotChunk, initBotState, update_chat_response, h1, h2, e1, e2]

/-- C4 witness: the theorem applied to the empty history and the two
concrete splitter outputs. -/
theorem c4_witness :
    (runBot (initBotState [])
        [{ thinking := "", response := "Hel", thinking_complete := false,
           prompt_eval_count := none, eval_count := none },
         { thinking := "", response := "Hello", thinking_complete := false,
           prompt_eval_count := none, eval_count := none }]).history =
      [] ++ [{ role := "assistant", content := "Hello" }] :=
  c4_response_overwrite [] _ _ rfl rfl

/-- C5: for every non-empty incoming thinking fragment, the thinking display
updater overwrites the last entry exactly when the entry list is non-empty
and the fragment starts with the previously displayed fragment, and appends
a new entry otherwise. -/
theorem c5_thinking_merge_rule (msgs : List ThinkMsg) (t cur : String) (tc : Bool)
    (ht : t.isEmpty = false) :
    update_thinking_messages msgs t tc cur =
      (if msgs ≠ [] ∧ startswith t cur = true then
        msgs.dropLast ++
          [{ role := "assistant",
             content := "**" ++ (if tc then "✓" else "⏳") ++ " Thinking**\n\n" ++ t }]
      else
        msgs ++
          [{ role := "assistant",
             content := "**" ++ (if tc then "✓" else "⏳") ++ " Thinking**\n\n" ++ t }]) := by
  simp only [update_thinking_messages, ht]
  by_cases hm : msgs = []
  · subst hm
    simp [startswith]
  · by_cases hs : startswith t cur = true
    · simp [hm, hs, List.isEmpty_iff]
    · simp [hm, hs, List.isEmpty_iff]

/-- C5 witness: the merge rule applied to a one-entry list, the fragment
"AB" and the previously displayed fragment "A". -/
theorem c5_witness :
    update_thinking_messages [{ role := "assistant", content := "x" }] "AB" false "A" =
      (if ([{ role := "assistant", content := "x" }] : List ThinkMsg) ≠ []
          ∧ startswith "AB" "A" = true then
        ([{ role := "assistant", content := "x" }] : List ThinkMsg).dropLast ++
          [{ role := "assistant",
             content := "**" ++ (if false then "✓" else "⏳") ++ " Thinking**\n\n" ++ "AB" }]
      else
        [{ role := "assistant", content := "x" }] ++
          [{ role := "assistant",
             content := "**" ++ (if false then "✓" else "⏳") ++ " Thinking**\n\n" ++ "AB" }]) :=
  c5_thinking_merge_rule [{ role := "assistant", content := "x" }] "AB" "A" false (by decide)

/-- C10: `add_message` appends exactly one user message carrying the
extracted text when that text is non-blank after stripping, returns the
history unchanged when it strips to empty, and in both cases returns a
cleared, non-interactive textbox. -/
theorem c10_add_message (history : List ChatMessage) (m : MsgInput) :
    ((strip (extractText m)).isEmpty = false →
      add_message history m =
        (history ++ [{ role := "user", content := extractText m }],
         { value := none, interactive := false }))
    ∧ ((strip (extractText m)).isEmpty = true →
      add_message history m = (history, { value := none, interactive := false })) := by
  constructor <;> intro h <;> simp [add_message, h]

/-- C10 witness: both branches at concrete inputs — a dict message whose
text " hi " is non-blank, and a whitespace-only string message. -/
theorem c10_witness :
    add_message [] (.dictIn (some " hi ")) =
      ([] ++ [{ role := "user", content := extractText (.dictIn (some " hi ")) }],
       { value := none, interactive := false })
    ∧ add_message [] (.strIn "   ") = ([], { value := none, interactive := false }) :=
  ⟨(c10_add_message [] (.dictIn (some " hi "))).1 (by decide),
   (c10_add_message [] (.strIn "   ")).2 (by decide)⟩

/-- Helper: the history filter of `chat_fn` never forwards a message whose
role is "system" (it only forwards assistant and user roles). -/
theorem forwardHistMsg_not_system (m : HistMsg) (o : LlmMessage)
    (h : forwardHistMsg m = some o) : (o.role == "system") = false := by
  unfold forwardHistMsg at h
  cases hr : m.role with
  | none => rw [hr] at h; cases hm : m.content <;> rw [hm] at h <;> simp at h
  | some r =>
    cases hm : m.content with
    | none => rw [hr, hm] at h; simp at h
    | some c =>
      rw [hr, hm] at h
      by_cases h1 : (!truthyOpt (some r) || !truthyOpt (some c)) = true
      · simp [h1] at h
      · simp only [h1, if_false] at h
        by_cases h2 : (r == "assistant" && !truthyOpt m.metadata_title) = true
        · simp only [h2, if_true] at h
          have ho : o.role = r := by cases h; rfl
          rw [ho]
          have : r = "assistant" := by
            have := (Bool.and_eq_true _ _).mp h2
            exact eq_of_beq this.1
          subst this; decide
        · simp only [h2, if_false] at h
          by_cases h3 : (r == "user") = true
          · simp only [h3, if_true] at h
            have ho : o.role = r := by cases h; rfl
            rw [ho]
            have : r = "user" := eq_of_beq h3
            subst this; decide
          · simp [h3] at h

/-- Helper: the filtered history contains no system-role message. -/
theorem filterMap_forward_no_system (history : List HistMsg) :
    ((history.filterMap forwardHistMsg).filter (fun m => m.role == "system")).length = 0 := by
  induction history with
  | nil => rfl
  | cons m t ih =>
    rw [List.filterMap_cons]
    cases h : forwardHistMsg m with
    | none => exact ih
    | some o =>
      rw [List.filter_cons]
      rw [forwardHistMsg_not_system m o h]
      simpa using ih

/-- C8: for every incoming history and extra message, the message list built
by `chat_fn` for the LLM client contains exactly one system message, and it
is the first element; no system message of the history is forwarded. -/
theorem c8_system_unique_first (sys : String) (history : List HistMsg) (message : String) :
    (buildMessages sys history message).head? = some { role := "system", content := sys }
    ∧ ((buildMessages sys history message).filter
        (fun m => m.role == "system")).length = 1 := by
  have hb : (("system" : String) == "system") = true := by decide
  have hu : (("user" : String) == "system") = false := by decide
  have h1 := filterMap_forward_no_system history
  refine ⟨rfl, ?_⟩
  have h2 : ((if !message.isEmpty && !(strip message).isEmpty then
      [({ role := "user", content := message } : LlmMessage)] else []).filter
        (fun m => m.role == "system")).length = 0 := by
    split
    · simp [List.filter_cons, hu]
    · rfl
  rw [buildMessages, List.filter_cons]
  simp only [hb, if_true, List.length_cons, List.filter_append, List.length_append, h1, h2]

/-- C6: a document whose content exceeds 5000 characters renders as exactly
the first 5000 characters followed by the truncation marker, and a document
of at most 5000 characters renders with its full content and no marker
appended. -/
theorem c6_document_truncation (f c : String) :
    (5000 < c.length →
      renderDocBlock f c =
        "\n---\n**Document: " ++ f ++ "**\n" ++ c.take 5000 ++ "\n...(truncated)"
          ++ "\n---\n"
      ∧ (c.take 5000).length = 5000)
    ∧ (c.length ≤ 5000 →
      renderDocBlock f c = "\n---\n**Document: " ++ f ++ "**\n" ++ c ++ "\n---\n") := by
  have hlen : c.length = c.data.length := rfl
  constructor
  · intro h
    constructor
    · rw [renderDocBlock, if_pos h]
    · rw [String.take_eq]
      show (c.data.take 5000).length = 5000
      rw [List.length_take]
      omega
  · intro h
    have htake : c.take 5000 = c := by
      rw [String.take_eq]
      have : c.data.take 5000 = c.data := List.take_of_length_le (by omega)
      rw [this]
    rw [renderDocBlock, if_neg (by omega), htake]
    simp [String.append_assoc]

/-- C6 witness: both branches at concrete contents — the 5001-character
`longContent` and the 3-character content "abc". -/
theorem c6_witness :
    (renderDocBlock "r.txt" longContent =
      "\n---\n**Document: " ++ "r.txt" ++ "**\n" ++ longContent.take 5000
        ++ "\n...(truncated)" ++ "\n---\n"
    ∧ (longContent.take 5000).length = 5000)
    ∧ renderDocBlock "r.txt" "abc" =
      "\n---\n**Document: " ++ "r.txt" ++ "**\n" ++ "abc" ++ "\n---\n" :=
  ⟨(c6_document_truncation "r.txt" longContent).1
      (by
        have h : longContent.length = 5001 := List.length_replicate 5001 'a'
        omega),
   (c6_document_truncation "r.txt" "abc").2 (by decide)⟩

/-- Helper: a chunk with no (truthy) thinking field leaves an empty thinking
buffer empty. -/
theorem processChunk_thinking_empty (s : SplitState) (c : Chunk)
    (hs : s.thinking_buffer = "")
    (hc : ∀ m, c.message = some m → truthyOpt m.thinking = false) :
    (processChunk s c).1.thinking_buffer = "" := by
  unfold processChunk
  cases hm : c.message with
  | none => simpa using hs
  | some m =>
    have := hc m hm
    simp [this, hs]

/-- Helper: when no chunk carries non-empty thinking, the splitter's
thinking buffer stays empty and every emitted state has empty thinking. -/
theorem runChunks_no_thinking (cs : List Chunk) (s : SplitState)
    (hs : s.thinking_buffer = "")
    (hc : ∀ c ∈ cs, ∀ m, c.message = some m → truthyOpt m.thinking = false) :
    (runChunks s cs).1.thinking_buffer = ""
    ∧ ∀ o ∈ (runChunks s cs).2, o.thinking = "" := by
  induction cs generalizing s with
  | nil => exact ⟨hs, by intro o ho; simp [runChunks] at ho⟩
  | cons c cs ih =>
    have hs' : (processChunk s c).1.thinking_buffer = "" :=
      processChunk_thinking_empty s c hs (hc c (List.mem_cons_self c cs))
    have hc' : ∀ d ∈ cs, ∀ m, d.message = some m → truthyOpt m.thinking = false :=
      fun d hd => hc d (List.mem_cons_of_mem c hd)
    have ihr := ih (processChunk s c).1 hs' hc'
    refine ⟨?_, ?_⟩
    · show (runChunks (processChunk s c).1 cs).1.thinking_buffer = ""
      exact ihr.1
    · intro o ho
      show o.thinking = ""
      have : o ∈ (if (processChunk s c).2 then [(processChunk s c).1.toOut] else [])
          ++ (runChunks (processChunk s c).1 cs).2 := ho
      rw [List.mem_append] at this
      cases this with
      | inl h =>
        split at h
        · rw [List.mem_singleton] at h
          subst h
          exact hs'
        · simp at h
      | inr h => exact ihr.2 o h

/-- Helper: once the thinking display holds the waiting status and every
remaining chunk has empty thinking, the loop keeps the waiting status. -/
theorem runBot_waiting (outs : List OutChunk) (st : BotState)
    (ho : ∀ o ∈ outs, o.thinking = "")
    (hm : st.thinking_messages = create_status_message "Waiting for response...") :
    (runBot st outs).thinking_messages = create_status_message "Waiting for response..." := by
  induction outs generalizing st with
  | nil => exact hm
  | cons o t ih =>
    have hot : o.thinking = "" := ho o (List.mem_cons_self o t)
    show (runBot (processBotChunk st o) t).thinking_messages = _
    apply ih
    · exact fun x hx => ho x (List.mem_cons_of_mem o hx)
    · show update_thinking_messages st.thinking_messages o.thinking o.thinking_complete
        st.current_thinking_content = _
      rw [hot, hm]
      rfl

/-- C2 counterexample: for the single chunk {response:"hello"} (no thinking
ever), the final thinking transcript is not the "No thinking data available"
sentinel — the "Waiting for response..." status entry occupies the list, so
the sentinel branch of `bot_response` is not taken. -/
theorem c2_counterexample :
    bot_final_thinking [] (chat_fn_outputs [respChunk "hello"] false "") ≠
      create_status_message "No thinking data available" := by
  decide

/-- C2 (amended): for every chunk sequence in which no chunk carries
non-empty thinking and at least one state is emitted, the final thinking
transcript equals the single "Waiting for response..." status entry (not the
"No thinking data available" sentinel, which appears only when the splitter
emits nothing); and for the single chunk {response:"hello"} the transcript's
appended assistant message carries exactly "hello". -/
theorem c2_no_thinking_waiting_status (hist : List ChatMessage) (chunks : List Chunk) :
    ((∀ c ∈ chunks, ∀ m, c.message = some m → truthyOpt m.thinking = false) →
      chat_fn_outputs chunks false "" ≠ [] →
      bot_final_thinking hist (chat_fn_outputs chunks false "") =
        create_status_message "Waiting for response...")
    ∧ bot_final_history hist (chat_fn_outputs [respChunk "hello"] false "") =
        hist ++ [{ role := "assistant", content := "hello" }] := by
  constructor
  · intro hc hne
    have houts : ∀ o ∈ chat_fn_outputs chunks false "", o.thinking = "" := by
      intro o ho
      have h := (runChunks_no_thinking chunks initSplitState rfl hc).2
      apply h
      simpa [chat_fn_outputs] using ho
    rw [bot_final_thinking]
    cases houts' : chat_fn_outputs chunks false "" with
    | nil => exact absurd houts' hne
    | cons o rest =>
      rw [houts'] at houts
      have h1 : (processBotChunk (initBotState hist) o).thinking_messages =
          create_status_message "Waiting for response..." := by
        show update_thinking_messages [] o.thinking o.thinking_complete "" = _
        rw [houts o (List.mem_cons_self o rest)]
        rfl
      have h2 : (runBot (initBotState hist) (o :: rest)).thinking_messages =
          create_status_message "Waiting for response..." := by
        show (runBot (processBotChunk (initBotState hist) o) rest).thinking_messages = _
        exact runBot_waiting rest _ (fun x hx => houts x (List.mem_cons_of_mem o hx)) h1
      rw [h2]
      rfl
  · have houts : chat_fn_outputs [respChunk "hello"] false "" =
        [{ thinking := "", response := "hello", thinking_complete := false,
           prompt_eval_count := some 0, eval_count := some 0 }] := by decide
    rw [bot_final_history, houts]
    show (update_chat_response hist "hello" false) = _
    have hh : ("hello").isEmpty = false := by decide
    rw [update_chat_response]
    simp [hh]

/-- C2 witness: the amended statement applied to the empty history and the
single-chunk sequence [{response:"hello"}]. -/
theorem c2_witness :
    bot_final_thinking [] (chat_fn_outputs [respChunk "hello"] false "") =
      create_status_message "Waiting for response..." :=
  (c2_no_thinking_waiting_status [] [respChunk "hello"]).1
    (by
      intro c hc m hm
      rw [List.mem_singleton] at hc
      subst hc
      cases hm
      rfl)
    (by decide)

/-- Helper: one loop step never resets `thinking_complete` to false. -/
theorem processChunk_tc_mono (s : SplitState) (c : Chunk)
    (h : s.thinking_complete = true) : (processChunk s c).1.thinking_complete = true := by
  unfold processChunk
  cases c.message <;> simp [h]

/-- Helper: from a state with `thinking_complete = true`, every emitted
state also has it true. -/
theorem runChunks_outs_tc_true (cs : List Chunk) (s : SplitState)
    (h : s.thinking_complete = true) :
    ∀ o ∈ (runChunks s cs).2, o.thinking_complete = true := by
  induction cs generalizing s with
  | nil => intro o ho; simp [runChunks] at ho
  | cons c cs ih =>
    intro o ho
    have : o ∈ (if (processChunk s c).2 then [(processChunk s c).1.toOut] else [])
        ++ (runChunks (processChunk s c).1 cs).2 := ho
    rw [List.mem_append] at this
    cases this with
    | inl hin =>
      split at hin
      · rw [List.mem_singleton] at hin
        subst hin
        exact processChunk_tc_mono s c h
      · simp at hin
    | inr hin => exact ih (processChunk s c).1 (processChunk_tc_mono s c h) o hin

/-- Helper: the emitted states of the normal path are pairwise monotone in
`thinking_complete`. -/
theorem runChunks_pairwise_tc (cs : List Chunk) (s : SplitState) :
    ((runChunks s cs).2).Pairwise
      (fun a b => a.thinking_complete = true → b.thinking_complete = true) := by
  induction cs generalizing s with
  | nil => exact List.Pairwise.nil
  | cons c cs ih =>
    show ((if (processChunk s c).2 then [(processChunk s c).1.toOut] else [])
        ++ (runChunks (processChunk s c).1 cs).2).Pairwise _
    rw [List.pairwise_append]
    refine ⟨?_, ih (processChunk s c).1, ?_⟩
    · split
      · exact List.pairwise_singleton _ _
      · exact List.Pairwise.nil
    · intro a ha b hb hatc
      have ha' : a = (processChunk s c).1.toOut := by
        split at ha
        · exact List.mem_singleton.mp ha
        · simp at ha
      have hstc : (processChunk s c).1.thinking_complete = true := by
        rw [ha'] at hatc
        exact hatc
      exact runChunks_outs_tc_true cs (processChunk s c).1 hstc b hb

/-- Helper: all of `chat_fn`'s emissions, the error-path terminal state
included, are pairwise monotone in `thinking_complete`. -/
theorem chat_fn_outputs_pairwise_tc (chunks : List Chunk) (errored : Bool) (e : String) :
    (chat_fn_outputs chunks errored e).Pairwise
      (fun a b => a.thinking_complete = true → b.thinking_complete = true) := by
  rw [chat_fn_outputs, List.pairwise_append]
  refine ⟨runChunks_pairwise_tc chunks initSplitState, ?_, ?_⟩
  · split
    · exact List.pairwise_singleton _ _
    · exact List.Pairwise.nil
  · intro a _ b hb _
    have : b = errorOut e := by
      split at hb
      · exact List.mem_singleton.mp hb
      · simp at hb
    rw [this]
    rfl

/-- C9: in the sequence of states emitted by `chat_fn`, `thinking_complete`
is monotone: once an emitted state has it true, every later emitted state
(the error-path terminal state included) also has it true. -/
theorem c9_thinking_complete_monotone (chunks : List Chunk) (errored : Bool) (e : String)
    (i j : Nat) (hi : i < (chat_fn_outputs chunks errored e).length)
    (hj : j < (chat_fn_outputs chunks errored e).length) (hij : i ≤ j)
    (h : ((chat_fn_outputs chunks errored e).get ⟨i, hi⟩).thinking_complete = true) :
    ((chat_fn_outputs chunks errored e).get ⟨j, hj⟩).thinking_complete = true := by
  rcases Nat.lt_or_ge i j with hlt | hge
  · have hp := chat_fn_outputs_pairwise_tc chunks errored e
    rw [List.pairwise_iff_get] at hp
    exact hp ⟨i, hi⟩ ⟨j, hj⟩ hlt h
  · have : i = j := Nat.le_antisymm hij hge
    subst this
    exact h

/-- C9 witness: monotonicity applied at indices 1 ≤ 2 of the emission
sequence of [{thinking:"A"}, {response:"X"}] followed by a raise. -/
theorem c9_witness :
    ((chat_fn_outputs [thinkChunk "A", respChunk "X"] true "boom").get
      ⟨2, by decide⟩).thinking_complete = true :=
  c9_thinking_complete_monotone [thinkChunk "A", respChunk "X"] true "boom" 1 2
    (by decide) (by decide) (by decide) (by decide)

/-- Helper: a filename is counted zero times exactly when the duplicate
check does not find it. -/
theorem countFilename_eq_zero_iff (store : DocStore) (b : String) :
    countFilename store b = 0 ↔ hasFilename store b = false := by
  simp [countFilename, hasFilename, List.length_eq_zero, List.filter_eq_nil_iff,
    List.any_eq_false]

/-- Helper: a filename the duplicate check finds is counted at least once. -/
theorem one_le_countFilename_of_has (store : DocStore) (b : String)
    (h : hasFilename store b = true) : 1 ≤ countFilename store b := by
  rw [hasFilename, List.any_eq_true] at h
  obtain ⟨x, hx, hpx⟩ := h
  have : x ∈ store.filter (fun e => e.2.filename == b) := List.mem_filter.mpr ⟨hx, hpx⟩
  have := List.length_pos.mpr (List.ne_nil_of_mem this)
  rw [countFilename]
  omega

/-- Helper: appending one entry adds one to the count of its filename and
nothing to any other. -/
theorem countFilename_append_one (store : DocStore) (e : String × Doc) (b : String) :
    countFilename (store ++ [e]) b =
      countFilename store b + (if e.2.filename == b then 1 else 0) := by
  rw [countFilename, countFilename, List.filter_append, List.length_append]
  congr 1
  rw [List.filter_cons]
  split <;> simp

/-- Helper: the duplicate check after appending one entry. -/
theorem hasFilename_append_one (store : DocStore) (e : String × Doc) (b : String) :
    hasFilename (store ++ [e]) b = (hasFilename store b || (e.2.filename == b)) := by
  simp [hasFilename, List.any_append]

/-- Helper: an upload whose basename is already stored leaves the store and
the clock unchanged. -/
theorem uploadOne_skip (store : DocStore) (k : Nat) (f : FileInput)
    (h : hasFilename store (basename f.path) = true) :
    uploadOne (store, k) f = (store, k) := by
  simp [uploadOne, h]

/-- Helper: a readable upload with a fresh basename appends exactly one
entry carrying that filename. -/
theorem uploadOne_insert (store : DocStore) (k : Nat) (f : FileInput) (c : String)
    (h : hasFilename store (basename f.path) = false) (hc : f.content = some c) :
    ∃ i d, d.filename = basename f.path
      ∧ uploadOne (store, k) f = (store ++ [(i, d)], k + 1) := by
  refine ⟨"doc_" ++ toString (store.length + 1) ++ "_" ++ toString k,
    { filename := basename f.path, content := c, size_kb := f.size_kb,
      upload_date := toString k, status := "Active" }, rfl, ?_⟩
  simp [uploadOne, h, hc]

/-- Helper: uploading readable files with pairwise distinct fresh basenames
grows the store by exactly one entry per file. -/
theorem upload_all_new_length (files : List FileInput) :
    ∀ (store : DocStore) (k : Nat),
    (∀ f ∈ files, f.content.isSome) →
    (files.map (fun f => basename f.path)).Nodup →
    (∀ f ∈ files, hasFilename store (basename f.path) = false) →
    (files.foldl uploadOne (store, k)).1.length = store.length + files.length := by
  induction files with
  | nil => intro store k _ _ _; simp
  | cons f t ih =>
    intro store k h1 h2 h3
    obtain ⟨c, hc⟩ := Option.isSome_iff_exists.mp (h1 f (List.mem_cons_self f t))
    obtain ⟨i, d, hd, hins⟩ :=
      uploadOne_insert store k f c (h3 f (List.mem_cons_self f t)) hc
    have hnotin : basename f.path ∉ t.map (fun g => basename g.path) := by
      have := h2
      rw [List.map_cons, List.nodup_cons] at this
      exact this.1
    have h3' : ∀ g ∈ t, hasFilename (store ++ [(i, d)]) (basename g.path) = false := by
      intro g hg
      rw [hasFilename_append_one]
      have hga : hasFilename store (basename g.path) = false :=
        h3 g (List.mem_cons_of_mem f hg)
      have hne : (d.filename == basename g.path) = false := by
        rw [hd]
        rw [beq_eq_false_iff_ne]
        intro hcontra
        exact hnotin (hcontra ▸ List.mem_map_of_mem (fun g => basename g.path) hg)
      rw [hga, hne]
      rfl
    have h1' : ∀ g ∈ t, g.content.isSome := fun g hg => h1 g (List.mem_cons_of_mem f hg)
    have h2' : (t.map (fun g => basename g.path)).Nodup := by
      rw [List.map_cons, List.nodup_cons] at h2
      exact h2.2
    show ((t.foldl uploadOne (uploadOne (store, k) f)).1.length = _)
    rw [hins]
    rw [ih (store ++ [(i, d)]) (k + 1) h1' h2' h3']
    simp [List.length_append]
    omega

/-- C7: uploading two readable files with the same basename — in one batch
or in sequence — leaves exactly one store entry for that filename (for a
store satisfying the at-most-one-per-filename invariant), the second upload
being a no-op; and uploading readable files with pairwise distinct fresh
basenames adds exactly one entry per file. -/
theorem c7_upload_dedup (store : DocStore) (k : Nat) (f1 f2 : FileInput)
    (files : List FileInput) :
    ((basename f1.path = basename f2.path ∧ f1.content.isSome ∧ f2.content.isSome ∧
      countFilename store (basename f1.path) ≤ 1) →
      countFilename (handle_file_upload [f1, f2] store k).1 (basename f1.path) = 1
      ∧ handle_file_upload [f2] (handle_file_upload [f1] store k).1
          (handle_file_upload [f1] store k).2 = handle_file_upload [f1] store k)
    ∧ (((∀ f ∈ files, f.content.isSome) ∧ (files.map (fun f => basename f.path)).Nodup ∧
        (∀ f ∈ files, hasFilename store (basename f.path) = false)) →
      (handle_file_upload files store k).1.length = store.length + files.length) := by
  constructor
  · rintro ⟨hb, h1, h2, hcount⟩
    obtain ⟨c1, hc1⟩ := Option.isSome_iff_exists.mp h1
    have hb2 : handle_file_upload [f1, f2] store k = uploadOne (uploadOne (store, k) f1) f2 := rfl
    have hb1 : handle_file_upload [f1] store k = uploadOne (store, k) f1 := rfl
    cases hhas : hasFilename store (basename f1.path) with
    | true =>
      have hskip1 : uploadOne (store, k) f1 = (store, k) := uploadOne_skip store k f1 hhas
      have hskip2 : uploadOne (store, k) f2 = (store, k) :=
        uploadOne_skip store k f2 (by rw [← hb]; exact hhas)
      have hcnt : countFilename store (basename f1.path) = 1 := by
        have := one_le_countFilename_of_has store (basename f1.path) hhas
        omega
      constructor
      · rw [hb2, hskip1, hskip2]
        exact hcnt
      · rw [hb1, hskip1]
        show handle_file_upload [f2] store k = (store, k)
        have : handle_file_upload [f2] store k = uploadOne (store, k) f2 := rfl
        rw [this, hskip2]
    | false =>
      obtain ⟨i, d, hd, hins⟩ := uploadOne_insert store k f1 c1 hhas hc1
      have hcnt0 : countFilename store (basename f1.path) = 0 :=
        (countFilename_eq_zero_iff store (basename f1.path)).mpr hhas
      have hhas' : hasFilename (store ++ [(i, d)]) (basename f2.path) = true := by
        rw [hasFilename_append_one, hd, ← hb]
        simp
      have hskip2 : uploadOne (store ++ [(i, d)], k + 1) f2 = (store ++ [(i, d)], k + 1) :=
        uploadOne_skip (store ++ [(i, d)]) (k + 1) f2 hhas'
      constructor
      · rw [hb2, hins, hskip2]
        show countFilename (store ++ [(i, d)]) (basename f1.path) = 1
        rw [countFilename_append_one, hcnt0, hd]
        simp
      · rw [hb1, hins]
        show handle_file_upload [f2] (store ++ [(i, d)]) (k + 1) = (store ++ [(i, d)], k + 1)
        have : handle_file_upload [f2] (store ++ [(i, d)]) (k + 1) =
            uploadOne (store ++ [(i, d)], k + 1) f2 := rfl
        rw [this, hskip2]
  · rintro ⟨h1, h2, h3⟩
    cases files with
    | nil => simp [handle_file_upload]
    | cons f t =>
      have : handle_file_upload (f :: t) store k = (f :: t).foldl uploadOne (store, k) := rfl
      rw [this]
      exact upload_all_new_length (f :: t) store k h1 h2 h3

/-- C7 witness: the dedup conclusion for two concrete paths sharing basename
"r.txt", and the one-entry-per-file conclusion for two distinct basenames. -/
theorem c7_witness :
    (countFilename
        (handle_file_upload [⟨"a/r.txt", some "x", 1⟩, ⟨"b/r.txt", some "y", 2⟩] [] 0).1
        (basename "a/r.txt") = 1
      ∧ handle_file_upload [⟨"b/r.txt", some "y", 2⟩]
          (handle_file_upload [⟨"a/r.txt", some "x", 1⟩] [] 0).1
          (handle_file_upload [⟨"a/r.txt", some "x", 1⟩] [] 0).2 =
          handle_file_upload [⟨"a/r.txt", some "x", 1⟩] [] 0)
    ∧ (handle_file_upload [⟨"a.txt", some "x", 1⟩, ⟨"b.txt", some "y", 1⟩] [] 0).1.length =
        ([] : DocStore).length + 2 :=
  ⟨(c7_upload_dedup [] 0 ⟨"a/r.txt", some "x", 1⟩ ⟨"b/r.txt", some "y", 2⟩
      [⟨"a.txt", some "x", 1⟩, ⟨"b.txt", some "y", 1⟩]).1
      ⟨by decide, by decide, by decide, by decide⟩,
   (c7_upload_dedup [] 0 ⟨"a/r.txt", some "x", 1⟩ ⟨"b/r.txt", some "y", 2⟩
      [⟨"a.txt", some "x", 1⟩, ⟨"b.txt", some "y", 1⟩]).2
      ⟨by decide, by decide, by decide⟩⟩
